import Mathlib

/-!
Shallow embedding of the delivery-assistant repository
(`enhanced_agent.py` plus its Streamlit client).

The store is a SQLite database with three tables (`orders`, `menu_items`,
`feedback`); we embed a database state as three Lean lists.  SQL rows become
structures, `REAL` money columns become exact cent counts (`Int`, so `24.99`
becomes `2499`), and `TIMESTAMP` columns become `Int` (seconds on an abstract
clock); `datetime.now()` becomes an explicit `now : Int` argument.  Each tool function of `EnhancedDeliveryAssistant`
becomes a pure Lean function from the database state (and its string
arguments) to its formatted reply string together with the resulting state.
-/

/-- A row of the `orders` table (`enhanced_agent.py`, `init_database`).
`estimated_delivery` is nullable, hence `Option Int`; an unparseable stored
timestamp is likewise modelled as `none` (the code treats both as "no ETA"). -/
structure Order where
  order_id : Int
  customer_name : String
  items : String
  status : String
  estimated_delivery : Option Int
  restaurant_name : String
  delivery_address : String
  phone_number : String
  order_total : Int
  created_at : Int
deriving DecidableEq

/-- A row of the `menu_items` table.  The surrogate `item_id` plays no role in
any tool function and is left out; list position stands for insertion order. -/
structure MenuItem where
  name : String
  category : String
  price : Int
  description : String
  recommended_pairings : String
deriving DecidableEq

/-- A row of the `feedback` table (the `created_at` default column is never
read by any tool function and is left out). -/
structure Feedback where
  order_id : Int
  rating : Int
  comments : String
deriving DecidableEq

/-- The whole store: the three tables of `init_database`. -/
structure DB where
  orders : List Order
  menu : List MenuItem
  feedback : List Feedback
deriving DecidableEq

/-- Fold a digit list into a number, failing on a non-digit
(the core of Python `int(...)` on a decimal literal). -/
def decDigits (cs : List Char) : Option Nat :=
  cs.foldl
    (fun acc c =>
      match acc with
      | none => none
      | some n => if c.isDigit then some (n * 10 + (c.toNat - 48)) else none)
    (some 0)

/-- Python `int(s)` on the inputs this program feeds it: an optional sign
followed by decimal digits; anything else raises `ValueError`, which we model
as `none`. -/
def pyInt (s : String) : Option Int :=
  match s.data with
  | [] => none
  | '-' :: rest =>
      if rest.isEmpty then none else (decDigits rest).map (fun n => -(n : Int))
  | '+' :: rest =>
      if rest.isEmpty then none else (decDigits rest).map (fun n => (n : Int))
  | cs => (decDigits cs).map (fun n => (n : Int))

/-- Lowercased character list of a string (ASCII case folding, as in SQLite
`LIKE` and the lowercase patterns this program uses). -/
def lowerData (s : String) : List Char :=
  s.data.map Char.toLower

/-- SQLite `col LIKE '%pat%'`: case-insensitive (ASCII) substring containment
of `pat` in `col`.  Also the model for Python `pat in col.lower()` when `pat`
is lowercase. -/
def likeContains (col pat : String) : Bool :=
  ((lowerData col).tails).any (fun t => (lowerData pat).isPrefixOf t)

/-- `SELECT ... FROM orders WHERE order_id = ?` followed by `fetchone()`:
`order_id` is the primary key, so the first match is the row. -/
def findOrder (db : DB) (n : Int) : Option Order :=
  db.orders.find? (fun o => o.order_id == n)

/-- `UPDATE orders SET ... WHERE order_id = ?`: rewrite every row whose
`order_id` equals `n` (the primary key makes that at most one row). -/
def updateOrders (db : DB) (n : Int) (f : Order → Order) : DB :=
  { db with orders := db.orders.map (fun o => if o.order_id = n then f o else o) }

/-- Render a cent count the way Python `f"{x:.2f}"` renders the program's
cent-exact totals: two decimal places. -/
def formatMoney (c : Int) : String :=
  let cents := c.natAbs
  let sign := if c < 0 then "-" else ""
  sign ++ toString (cents / 100) ++ "." ++
    (if cents % 100 < 10 then "0" else "") ++ toString (cents % 100)

/-- Python `str.title()` over one character: uppercase an ASCII letter that
starts a word, lowercase one inside a word. -/
def pyTitleAux : Bool → List Char → List Char
  | _, [] => []
  | prevAlpha, c :: rest =>
      (if c.isAlpha then (if prevAlpha then c.toLower else c.toUpper) else c)
        :: pyTitleAux c.isAlpha rest

/-- Python `str.title()` (on this program's ASCII-plus-emoji strings). -/
def pyTitle (s : String) : String :=
  String.mk (pyTitleAux false s.data)

/-- The `status_messages` dictionary lookup `status_messages.get(status, status)`
in `track_order`. -/
def statusPhrase (status : String) : String :=
  if status = "preparing" then "🍳 Your order is being prepared"
  else if status = "in_transit" then "🚚 Your order is on the way"
  else if status = "delivered" then "✅ Your order has been delivered"
  else if status = "cancelled" then "❌ Your order was cancelled"
  else status

/-- The `time_msg` computation of `track_order` (lines 175-182): an ETA tail
is produced whenever the stored timestamp parsed and the status is not
`delivered` — the one status the code tests for. -/
def trackTimeMsg (status : String) (est : Option Int) (now : Int) : String :=
  match est with
  | none => ""
  | some t =>
      if status ≠ "delivered" then
        if 0 < t - now then
          " - ETA: " ++ toString ((t - now) / 60) ++ " minutes"
        else
          " - Should arrive any moment!"
      else ""

def invalidIdMsg : String := "❌ Please provide a valid order ID number."

def notFoundMsg (n : Int) : String :=
  "❌ Order #" ++ toString n ++ " not found. Please check your order ID."

/-- The f-string returned by `track_order` on a found row. -/
def trackBody (o : Order) (now : Int) : String :=
  "📦 Order #" ++ toString o.order_id ++ " Status Update:\n"
    ++ pyTitle (statusPhrase o.status)
    ++ trackTimeMsg o.status o.estimated_delivery now
    ++ "\n🏪 Restaurant: " ++ o.restaurant_name
    ++ "\n📍 Delivery to: " ++ o.delivery_address
    ++ "\n🍽️ Items: " ++ o.items

/-- `EnhancedDeliveryAssistant.track_order` on its non-fault paths
(the store-error paths are modelled by the connection traces below).
Reads only, so it returns just the reply string. -/
def track_order (db : DB) (now : Int) (ids : String) : String :=
  match pyInt ids with
  | none => invalidIdMsg
  | some n =>
      match findOrder db n with
      | none => notFoundMsg n
      | some o => trackBody o now

def cancelPromptMsg : String :=
  "⚠️ I need an order ID to cancel your order. Please provide your order number."

def deliveredMsg (n : Int) : String :=
  "❌ Order #" ++ toString n ++ " has already been delivered and cannot be cancelled."

def alreadyCancelledMsg (n : Int) : String :=
  "ℹ️ Order #" ++ toString n ++ " was already cancelled."

def cancelSuccessMsg (n : Int) (total : Int) : String :=
  "✅ Order #" ++ toString n ++ " has been successfully cancelled!\n"
    ++ "💰 Refund of $" ++ formatMoney total
    ++ " will be processed within 3-5 business days.\n"
    ++ "📧 You'll receive a confirmation email shortly."

/-- `EnhancedDeliveryAssistant.cancel_order` on its non-fault paths
(`if not order_id` on a string argument is the emptiness test). -/
def cancel_order (db : DB) (ids : String) : String × DB :=
  if ids = "" then (cancelPromptMsg, db)
  else
    match pyInt ids with
    | none => (invalidIdMsg, db)
    | some n =>
        match findOrder db n with
        | none => (notFoundMsg n, db)
        | some o =>
            if o.status = "delivered" then (deliveredMsg n, db)
            else if o.status = "cancelled" then (alreadyCancelledMsg n, db)
            else
              (cancelSuccessMsg n o.order_total,
               updateOrders db n (fun p => { p with status := "cancelled" }))

/-- The row selected by `get_menu_recommendation`'s query: a `UNION ALL` of
the name matches and the name-missing description matches, `LIMIT 1` — SQLite
emits the first branch's rows first, so the query is the head of the
name-match list followed by the description-only list. -/
def get_menu_recommendation_row (db : DB) (q : String) : Option MenuItem :=
  ((db.menu.filter (fun m => likeContains m.name q)) ++
    (db.menu.filter (fun m => likeContains m.description q && ! likeContains m.name q))).head?

/-- `EnhancedDeliveryAssistant.get_menu_recommendation` (read-only): the
database hit, else the keyword fallback table. -/
def get_menu_recommendation (db : DB) (q : String) : String :=
  match get_menu_recommendation_row db q with
  | some m =>
      "🍽️ " ++ m.name ++ " ($" ++ formatMoney m.price ++ ")\n"
        ++ "📝 " ++ m.description ++ "\n"
        ++ "🤝 Great pairings: " ++ m.recommended_pairings
  | none =>
      if likeContains q "burger" then
        "🍔 For a burger, we recommend a side of curly fries and a cold soda or milkshake!"
      else if likeContains q "pizza" then
        "🍕 Pizza goes great with garlic knots and sparkling water or a nice red wine!"
      else if likeContains q "pasta" then
        "🍝 Try a house salad and a glass of white wine with pasta dishes!"
      else
        "🍽️ For " ++ q ++ ", we suggest asking our chef for the perfect drink pairing!"

/-- The rows selected by `get_order_history`'s query:
`WHERE customer_name LIKE '%name%' ORDER BY created_at DESC LIMIT 5`. -/
def get_order_history_rows (db : DB) (name : String) : List Order :=
  (List.insertionSort (fun a b => b.created_at ≤ a.created_at)
    (db.orders.filter (fun o => likeContains o.customer_name name))).take 5

/-- The stored-timestamp rendering of `get_order_history` (Python re-formats
the `created_at` column with `strftime`; calendar formatting of the abstract
clock is rendered as the bare number). -/
def formatDate (t : Int) : String := toString t

def historyNotFoundMsg (name : String) : String :=
  "❌ No orders found for " ++ name ++ "."

/-- `EnhancedDeliveryAssistant.get_order_history` (read-only). -/
def get_order_history (db : DB) (name : String) : String :=
  let rows := get_order_history_rows db name
  if rows.isEmpty then historyNotFoundMsg name
  else
    rows.foldl
      (fun acc o =>
        acc ++ "\n🔸 Order #" ++ toString o.order_id ++ " (" ++ formatDate o.created_at
          ++ ")\n   Items: " ++ o.items
          ++ "\n   Status: " ++ pyTitle o.status
          ++ "\n   Total: $" ++ formatMoney o.order_total ++ "\n")
      ("📋 Order History for " ++ name ++ ":\n")

def ratingRangeMsg : String := "❌ Please provide a rating between 1 and 5 stars."

def feedbackInvalidMsg : String := "❌ Please provide valid order ID and rating (1-5)."

def feedbackNotFoundMsg (n : Int) : String := "❌ Order #" ++ toString n ++ " not found."

/-- Python `"⭐" * rating_int`. -/
def starGlyphs (r : Int) : String := String.mk (List.replicate r.toNat '⭐')

def feedbackSuccessMsg (n r : Int) (comments : String) : String :=
  "✅ Thank you for your feedback!\n" ++ starGlyphs r ++ " (" ++ toString r
    ++ "/5)\nOrder #" ++ toString n ++ ": " ++ comments

/-- `EnhancedDeliveryAssistant.submit_feedback`: parse both ids, range-check
the rating before touching the store, check the order exists, insert one
feedback row. -/
def submit_feedback (db : DB) (ids rs comments : String) : String × DB :=
  match pyInt ids, pyInt rs with
  | some i, some r =>
      if r < 1 ∨ 5 < r then (ratingRangeMsg, db)
      else
        match findOrder db i with
        | none => (feedbackNotFoundMsg i, db)
        | some _ =>
            (feedbackSuccessMsg i r comments,
             { db with feedback := db.feedback ++ [⟨i, r, comments⟩] })
  | _, _ => (feedbackInvalidMsg, db)

/-- Python `s.split(sep, budget)` over the character list: at most `budget`
splits, the remainder kept whole. -/
def pySplitAux (sep : Char) : List Char → Nat → List Char → List String
  | [], _, acc => [String.mk acc.reverse]
  | c :: rest, budget, acc =>
      if c = sep ∧ 0 < budget then
        String.mk acc.reverse :: pySplitAux sep rest (budget - 1) []
      else
        pySplitAux sep rest budget (c :: acc)

/-- Python `x.split(',', 2)`. -/
def pySplit2 (x : String) : List String :=
  pySplitAux ',' x.data 2 []

/-- The Python `TypeError` text raised when `submit_feedback(*parts)` is
called with too few or too many positional arguments. -/
def arityErrorMsg : String :=
  "TypeError: submit_feedback() takes 2 to 4 positional arguments"

/-- The `submit_feedback` entry registered with the agent in `_create_agent`:
`lambda x: self.submit_feedback(*x.split(',', 2))`.  The star-unpacking is an
ordinary Python call, so a split that yields fewer than two parts (rating
missing) raises `TypeError` out of the lambda — before `submit_feedback`'s
own `try` can catch anything — modelled as `Except.error`. -/
def submit_feedback_tool (db : DB) (x : String) : Except String (String × DB) :=
  match pySplit2 x with
  | [a, b] => Except.ok (submit_feedback db a b "")
  | [a, b, c] => Except.ok (submit_feedback db a b c)
  | _ => Except.error arityErrorMsg

/-- The three seeded rows of `populate_sample_data` (`datetime.now()` is the
explicit clock `now`; `created_at` takes the insertion-time default). -/
def sampleOrders (now : Int) : List Order :=
  [⟨1023, "John Doe", "Margherita Pizza, Garlic Bread", "in_transit",
    some (now + 15 * 60), "Mario's Pizza", "123 Main St", "555-0123", 2499, now⟩,
   ⟨2042, "Jane Smith", "Cheeseburger, Fries, Coke", "preparing",
    some (now + 25 * 60), "Burger Palace", "456 Oak Ave", "555-0456", 1850, now⟩,
   ⟨3051, "Bob Johnson", "Chicken Alfredo, Caesar Salad", "delivered",
    some (now - 30 * 60), "Pasta House", "789 Pine Rd", "555-0789", 2275, now⟩]

/-- The four seeded rows of the `menu_items` table. -/
def sampleMenu : List MenuItem :=
  [⟨"Margherita Pizza", "Pizza", 1899, "Classic tomato sauce, mozzarella, basil",
    "Garlic Bread, Caesar Salad, Red Wine"⟩,
   ⟨"Cheeseburger", "Burger", 1299, "Beef patty, cheese, lettuce, tomato",
    "Fries, Onion Rings, Milkshake"⟩,
   ⟨"Chicken Alfredo", "Pasta", 1699, "Grilled chicken, creamy alfredo sauce",
    "Garlic Bread, House Salad, White Wine"⟩,
   ⟨"Caesar Salad", "Salad", 899, "Romaine lettuce, croutons, parmesan",
    "Soup, Breadsticks, Iced Tea"⟩]

/-- `DatabaseManager.populate_sample_data`: `SELECT COUNT(*) FROM orders`
guards the seeding — a nonempty orders table returns untouched; otherwise the
sample orders and menu items are inserted. -/
def populate_sample_data (db : DB) (now : Int) : DB :=
  if 0 < db.orders.length then db
  else { db with orders := db.orders ++ sampleOrders now,
                 menu := db.menu ++ sampleMenu }

/-- `DatabaseManager.init_database`: `CREATE TABLE IF NOT EXISTS` for the
three tables (the schema is fixed in this embedding, so table creation is the
identity) followed by `populate_sample_data`. -/
def init_database (db : DB) (now : Int) : DB :=
  populate_sample_data db now

/-- Modelled from the spec: the Tool Functions table of the spec lists
`update_order_with_recommendation` (inputs: order id and an item name matched
as a case-insensitive substring against the menu), but no function of that
name is present under `src/` — the spec is the only description available.
Per the spec it looks up the item price by case-insensitive substring match
(first match, per the spec's ambiguity note), looks up the order, appends the
item name to the order's item list, adds the price to the total, and
persists; non-numeric id, unmatched item and missing order give errors. -/
def update_order_with_recommendation (db : DB) (ids item : String) : String × DB :=
  match pyInt ids with
  | none => (invalidIdMsg, db)
  | some n =>
      match db.menu.find? (fun m => likeContains m.name item) with
      | none => ("❌ Item not found on the menu.", db)
      | some m =>
          match findOrder db n with
          | none => (notFoundMsg n, db)
          | some o =>
              ("✅ Added " ++ m.name ++ " to order #" ++ toString n ++ ".",
               updateOrders db n (fun p =>
                 { p with items := o.items ++ ", " ++ m.name,
                          order_total := o.order_total + m.price }))

/-- Whether a call opened a store connection and whether it closed it, per
exit path of each tool function. -/
structure ConnTrace where
  opened : Bool
  closed : Bool
deriving DecidableEq

/-- One invocation of a registered tool function, with its raw string
arguments. -/
inductive ToolCall where
  | trackOrder (ids : String)
  | cancelOrder (ids : String)
  | menuRecommendation (q : String)
  | orderHistory (name : String)
  | submitFb (ids rs : String)
  | restaurantInfo (name : String)

/-- Connection lifecycle of each tool function, traced from the source:
`fault` injects a `sqlite3.Error` raised by the first statement executed
after `connect`.  `track_order` and `cancel_order` call `conn.close()` inline
on their normal paths but have no `finally`, so their `except` paths return
with the connection still open; the other four tools close in a `finally`
(which also runs on the early returns taken before `connect`, when `conn` is
still `None`). -/
def runToolTrace : ToolCall → Bool → ConnTrace
  | .trackOrder ids, fault =>
      match pyInt ids with
      | none => ⟨false, false⟩
      | some _ => if fault then ⟨true, false⟩ else ⟨true, true⟩
  | .cancelOrder ids, fault =>
      if ids = "" then ⟨false, false⟩
      else
        match pyInt ids with
        | none => ⟨false, false⟩
        | some _ => if fault then ⟨true, false⟩ else ⟨true, true⟩
  | .menuRecommendation _, _ => ⟨true, true⟩
  | .orderHistory _, _ => ⟨true, true⟩
  | .submitFb ids rs, _ =>
      match pyInt ids, pyInt rs with
      | some _, some r => if r < 1 ∨ 5 < r then ⟨false, false⟩ else ⟨true, true⟩
      | _, _ => ⟨false, false⟩
  | .restaurantInfo _, _ => ⟨true, true⟩

/-- Which tool functions wrap their store work in `try`/`finally`. -/
def usesScopedRelease : ToolCall → Bool
  | .trackOrder _ => false
  | .cancelOrder _ => false
  | _ => true

/-- The seeded store, on the clock `now = 0`: the state every fresh start of
the program reaches. -/
def dbW : DB := init_database ⟨[], [], []⟩ 0

/-- The seeded row of order `3051` at clock `0`. -/
def ordBob : Order :=
  ⟨3051, "Bob Johnson", "Chicken Alfredo, Caesar Salad", "delivered",
   some (-1800), "Pasta House", "789 Pine Rd", "555-0789", 2275, 0⟩

/-- The seeded row of order `2042` at clock `0`. -/
def ordJane : Order :=
  ⟨2042, "Jane Smith", "Cheeseburger, Fries, Coke", "preparing",
   some 1500, "Burger Palace", "456 Oak Ave", "555-0456", 1850, 0⟩

/-- A one-order store whose single order is cancelled but still carries a
future estimated-delivery timestamp. -/
def dbC : DB :=
  { orders := [⟨7, "Ada Lovelace", "Margherita Pizza", "cancelled", some 600,
               "Mario's Pizza", "1 Analytical Way", "555-0007", 1899, 0⟩],
    menu := sampleMenu,
    feedback := [] }

/-- Python `sub in s`: case-sensitive substring containment. -/
def containsSub (s sub : String) : Bool :=
  (s.data.tails).any (fun t => sub.data.isPrefixOf t)

/-- Whether a reply string carries either of `track_order`'s two ETA
phrasings. -/
def hasETAPhrase (s : String) : Bool :=
  containsSub s "ETA:" || containsSub s "Should arrive any moment"

/-- `find?` commutes with a `map` whose function preserves the predicate. -/
theorem find?_map_preserve {α : Type} {f : α → α} {p : α → Bool}
    (h : ∀ a, p (f a) = p a) :
    ∀ l : List α, (l.map f).find? p = (l.find? p).map f
  | [] => rfl
  | a :: l => by
      by_cases hpa : p a = true
      · rw [List.map_cons, List.find?_cons_of_pos _ (by rw [h]; exact hpa),
          List.find?_cons_of_pos _ hpa, Option.map_some']
      · rw [List.map_cons, List.find?_cons_of_neg _ (by rw [h]; exact hpa),
          List.find?_cons_of_neg _ hpa, find?_map_preserve h l]

/-- Looking the row back up after an `UPDATE ... WHERE order_id = ?` returns
the rewritten row, provided the rewrite keeps the primary key. -/
theorem findOrder_updateOrders (db : DB) (n : Int) (f : Order → Order)
    (hkey : ∀ p, (f p).order_id = p.order_id) (o : Order)
    (h : findOrder db n = some o) :
    findOrder (updateOrders db n f) n = some (f o) := by
  have hid : o.order_id = n := by simpa using List.find?_some h
  have hpres : ∀ p : Order,
      ((if p.order_id = n then f p else p).order_id == n) = (p.order_id == n) := by
    intro p
    by_cases hp : p.order_id = n
    · simp [hp, hkey]
    · simp [hp]
  unfold findOrder updateOrders at *
  rw [find?_map_preserve hpres, h, Option.map_some']
  simp [hid]

/-- The two terminal-status refusals of `cancel_order` differ (their lengths
already differ by 28 characters). -/
theorem deliveredMsg_ne_alreadyCancelledMsg (n : Int) :
    deliveredMsg n ≠ alreadyCancelledMsg n := by
  intro h
  have h2 := congrArg String.length h
  rw [deliveredMsg, alreadyCancelledMsg, String.length_append, String.length_append,
    String.length_append, String.length_append,
    show ("❌ Order #" : String).length = 9 from rfl,
    show ("ℹ️ Order #" : String).length = 10 from rfl,
    show (" has already been delivered and cannot be cancelled." : String).length = 52 from rfl,
    show (" was already cancelled." : String).length = 23 from rfl] at h2
  omega

/-- C2: an order whose status is `delivered` or `cancelled` is refused by
`cancel_order` with the message naming that terminal status, the store is
left entirely unchanged, and the two refusal messages are distinct. -/
theorem cancel_order_terminal_refusal (db : DB) (s : String) (n : Int) (o : Order)
    (hp : pyInt s = some n) (hf : findOrder db n = some o) :
    (o.status = "delivered" → cancel_order db s = (deliveredMsg n, db)) ∧
    (o.status = "cancelled" → cancel_order db s = (alreadyCancelledMsg n, db)) ∧
    deliveredMsg n ≠ alreadyCancelledMsg n := by
  have hs : ¬(s = "") := by
    intro h
    rw [h, show pyInt "" = none from rfl] at hp
    simp at hp
  refine ⟨?_, ?_, deliveredMsg_ne_alreadyCancelledMsg n⟩
  · intro hd
    simp [cancel_order, hs, hp, hf, hd]
  · intro hc
    simp [cancel_order, hs, hp, hf, hc]

/-- C2 witness: cancelling the seeded, already-delivered order `3051`. -/
theorem cancel_order_terminal_refusal_witness :
    cancel_order dbW "3051" = (deliveredMsg 3051, dbW) ∧
    deliveredMsg 3051 ≠ alreadyCancelledMsg 3051 := by
  have h := cancel_order_terminal_refusal dbW "3051" 3051 ordBob (by decide) (by decide)
  exact ⟨h.1 rfl, h.2.2⟩

/-- C8: `cancel_order` on a non-terminal order answers the refund success
message and stores status `cancelled`; an immediate second cancel of the same
id answers the already-cancelled message and changes nothing further. -/
theorem cancel_order_nonterminal (db : DB) (s : String) (n : Int) (o : Order)
    (hp : pyInt s = some n) (hf : findOrder db n = some o)
    (hnd : o.status ≠ "delivered") (hnc : o.status ≠ "cancelled") :
    (cancel_order db s).1 = cancelSuccessMsg n o.order_total ∧
    findOrder (cancel_order db s).2 n = some { o with status := "cancelled" } ∧
    cancel_order (cancel_order db s).2 s =
      (alreadyCancelledMsg n, (cancel_order db s).2) := by
  have hs : ¬(s = "") := by
    intro h
    rw [h, show pyInt "" = none from rfl] at hp
    simp at hp
  have hred : cancel_order db s =
      (cancelSuccessMsg n o.order_total,
       updateOrders db n (fun p => { p with status := "cancelled" })) := by
    simp [cancel_order, hs, hp, hf, hnd, hnc]
  have hfind : findOrder (cancel_order db s).2 n = some { o with status := "cancelled" } := by
    rw [hred]
    exact findOrder_updateOrders db n
      (fun p => { p with status := "cancelled" }) (fun p => rfl) o hf
  refine ⟨by rw [hred], hfind, ?_⟩
  generalize (cancel_order db s).2 = d1 at hfind ⊢
  simp [cancel_order, hs, hp, hfind]

/-- C8 witness: cancelling the seeded, still-preparing order `2042` twice. -/
theorem cancel_order_nonterminal_witness :
    (cancel_order dbW "2042").1 = cancelSuccessMsg 2042 1850 ∧
    findOrder (cancel_order dbW "2042").2 2042 = some { ordJane with status := "cancelled" } ∧
    cancel_order (cancel_order dbW "2042").2 "2042" =
      (alreadyCancelledMsg 2042, (cancel_order dbW "2042").2) := by
  have h := cancel_order_nonterminal dbW "2042" 2042 ordJane
    (by decide) (by decide) (by decide) (by decide)
  exact ⟨h.1, h.2.1, h.2.2⟩

set_option maxRecDepth 8000 in
/-- C3 counterexample: in `dbC`, order `7` is terminal (`cancelled`) yet its
`track_order` reply does carry an ETA phrase — the code only suppresses the
ETA for status `delivered` (line 176: `status != "delivered"`). -/
theorem track_order_eta_on_cancelled :
    (findOrder dbC 7).map (fun o => o.status) = some "cancelled" ∧
    hasETAPhrase (track_order dbC 0 "7") = true := by decide

/-- C3 amended: for a stored order with a parseable estimated-delivery
timestamp, the ETA phrase of `track_order` is governed solely by
`status ≠ delivered`: a future timestamp yields the minutes-remaining phrase
and a past-due one the arriving-momentarily phrase whenever the status is not
`delivered` (so cancelled orders get one too); only a `delivered` order gets
no ETA phrase. -/
theorem track_order_eta_unless_delivered (db : DB) (now t : Int) (s : String)
    (n : Int) (o : Order)
    (hp : pyInt s = some n) (hf : findOrder db n = some o)
    (he : o.estimated_delivery = some t) :
    track_order db now s = trackBody o now ∧
    (o.status = "delivered" → trackTimeMsg o.status o.estimated_delivery now = "") ∧
    (o.status ≠ "delivered" → 0 < t - now →
      trackTimeMsg o.status o.estimated_delivery now =
        " - ETA: " ++ toString ((t - now) / 60) ++ " minutes") ∧
    (o.status ≠ "delivered" → t - now ≤ 0 →
      trackTimeMsg o.status o.estimated_delivery now =
        " - Should arrive any moment!") := by
  refine ⟨by simp [track_order, hp, hf], ?_, ?_, ?_⟩
  · intro hd
    simp [trackTimeMsg, he, hd]
  · intro hnd hfut
    simp [trackTimeMsg, he, hnd, hfut]
  · intro hnd hpast
    simp [trackTimeMsg, he, hnd]
    omega
/-- C3 amended witness: the cancelled order `7` of `dbC`, tracked at clock
`0`, still gets the 10-minute ETA phrase. -/
theorem track_order_eta_unless_delivered_witness :
    trackTimeMsg "cancelled" (some 600) 0 = " - ETA: 10 minutes" ∧
    track_order dbC 0 "7" =
      trackBody ⟨7, "Ada Lovelace", "Margherita Pizza", "cancelled", some 600,
        "Mario's Pizza", "1 Analytical Way", "555-0007", 1899, 0⟩ 0 := by
  have h := track_order_eta_unless_delivered dbC 0 600 "7" 7
    ⟨7, "Ada Lovelace", "Margherita Pizza", "cancelled", some 600,
     "Mario's Pizza", "1 Analytical Way", "555-0007", 1899, 0⟩
    (by decide) (by decide) rfl
  exact ⟨(h.2.2.1 (by decide) (by decide)).trans (by decide), h.1⟩

/-- C4: the `submit_feedback` tool entry of `_create_agent` splits its single
string argument on commas and star-unpacks the parts into
`submit_feedback(order_id, rating, comments="")`; a bare order id with no
comma yields one part, so the unpacking call itself raises `TypeError` to the
agent — no user-facing error string is returned. -/
theorem submit_feedback_tool_missing_comma :
    submit_feedback_tool dbW "1023" = Except.error arityErrorMsg := rfl

/-- C5 counterexample: a `sqlite3.Error` raised inside `track_order` after
`sqlite3.connect` leaves the connection unclosed — `track_order` has no
`finally` and its `except` branches return directly. -/
theorem track_order_conn_leak :
    (runToolTrace (ToolCall.trackOrder "1023") true).opened = true ∧
    (runToolTrace (ToolCall.trackOrder "1023") true).closed = false := by decide

/-- C5 amended: the four tools written with `try`/`finally`
(`get_menu_recommendation`, `get_order_history`, `submit_feedback`,
`get_restaurant_info`) close the connection they open on every exit path;
`track_order` and `cancel_order` close it on every path only when no store
error is raised after opening. -/
theorem toolcall_conn_release (c : ToolCall) (fault : Bool)
    (h : fault = false ∨ usesScopedRelease c = true) :
    (runToolTrace c fault).closed = (runToolTrace c fault).opened := by
  cases c with
  | trackOrder ids =>
      rcases h with h | h
      · subst h
        cases hip : pyInt ids <;> simp [runToolTrace, hip]
      · simp [usesScopedRelease] at h
  | cancelOrder ids =>
      rcases h with h | h
      · subst h
        by_cases he : ids = ""
        · simp [runToolTrace, he]
        · cases hip : pyInt ids <;> simp [runToolTrace, he, hip]
      · simp [usesScopedRelease] at h
  | menuRecommendation q => rfl
  | orderHistory name => rfl
  | submitFb ids rs =>
      cases hi : pyInt ids <;> cases hr : pyInt rs <;>
        simp [runToolTrace, hi, hr] <;> split <;> rfl
  | restaurantInfo name => rfl

/-- C5 amended witness: a fault-free `cancel_order` call balances its
connection. -/
theorem toolcall_conn_release_witness :
    (runToolTrace (ToolCall.cancelOrder "2042") false).closed =
      (runToolTrace (ToolCall.cancelOrder "2042") false).opened :=
  toolcall_conn_release (ToolCall.cancelOrder "2042") false (Or.inl rfl)

/-- C6: initializing the store twice leaves as many order rows as once —
the row-count guard of `populate_sample_data` seeds only an empty orders
table, and a nonempty store passes through unchanged. -/
theorem init_database_idempotent_seed (db : DB) (t1 t2 : Int) :
    (init_database (init_database db t1) t2).orders.length =
      (init_database db t1).orders.length ∧
    (db.orders ≠ [] → init_database db t1 = db) := by
  constructor
  · by_cases h : 0 < db.orders.length
    · simp [init_database, populate_sample_data, h]
    · have h0 : db.orders = [] := by
        cases hl : db.orders with
        | nil => rfl
        | cons a l => rw [hl] at h; simp at h
      simp [init_database, populate_sample_data, h0, sampleOrders]
  · intro hne
    have h : 0 < db.orders.length := List.length_pos.mpr hne
    simp [init_database, populate_sample_data, h]

/-- C6 witness: a second initialization of the seeded store `dbW` changes
nothing, and the double/single row counts agree from the empty store. -/
theorem init_database_idempotent_seed_witness :
    (init_database (init_database ⟨[], [], []⟩ 0) 5).orders.length =
      (init_database ⟨[], [], []⟩ 0).orders.length ∧
    init_database dbW 5 = dbW :=
  ⟨(init_database_idempotent_seed ⟨[], [], []⟩ 0 5).1,
   (init_database_idempotent_seed dbW 5 0).2 (by decide)⟩

/-- C7: with a numeric order id and a numeric rating outside `1..5`,
`submit_feedback` answers the range-error string, the store (in particular
the feedback table's row count) is unchanged, and no connection is ever
opened — the range check precedes `sqlite3.connect`. -/
theorem submit_feedback_range_rejected (db : DB) (ids rs c : String) (i r : Int)
    (hi : pyInt ids = some i) (hr : pyInt rs = some r) (hout : r < 1 ∨ 5 < r) :
    submit_feedback db ids rs c = (ratingRangeMsg, db) ∧
    (submit_feedback db ids rs c).2.feedback.length = db.feedback.length ∧
    ∀ fault : Bool, (runToolTrace (ToolCall.submitFb ids rs) fault).opened = false := by
  have h1 : submit_feedback db ids rs c = (ratingRangeMsg, db) := by
    simp [submit_feedback, hi, hr, hout]
  refine ⟨h1, by rw [h1], ?_⟩
  intro fault
  simp [runToolTrace, hi, hr, hout]

/-- C7 witness: rating `9` for the seeded order `1023`. -/
theorem submit_feedback_range_rejected_witness :
    submit_feedback dbW "1023" "9" "meh" = (ratingRangeMsg, dbW) ∧
    (runToolTrace (ToolCall.submitFb "1023" "9") true).opened = false := by
  have h := submit_feedback_range_rejected dbW "1023" "9" "meh" 1023 9
    (by decide) (by decide) (Or.inr (by decide))
  exact ⟨h.1, h.2.2 true⟩

/-- C9: the history query yields at most five rows, every one matching the
customer-name substring, sorted by creation time descending; and when no
stored order matches, `get_order_history` answers the not-found message. -/
theorem get_order_history_spec (db : DB) (name : String) :
    (get_order_history_rows db name).length ≤ 5 ∧
    (∀ o ∈ get_order_history_rows db name,
       likeContains o.customer_name name = true) ∧
    List.Sorted (fun a b => b.created_at ≤ a.created_at)
      (get_order_history_rows db name) ∧
    ((∀ o ∈ db.orders, likeContains o.customer_name name = false) →
       get_order_history db name = historyNotFoundMsg name) := by
  refine ⟨List.length_take_le _ _, ?_, ?_, ?_⟩
  · intro o ho
    have h1 := List.mem_of_mem_take ho
    rw [List.mem_insertionSort] at h1
    have h2 := List.of_mem_filter h1
    simpa using h2
  · haveI : IsTotal Order (fun a b => b.created_at ≤ a.created_at) :=
      ⟨fun a b => le_total b.created_at a.created_at⟩
    haveI : IsTrans Order (fun a b => b.created_at ≤ a.created_at) :=
      ⟨fun a b c hab hbc => le_trans hbc hab⟩
    exact List.Pairwise.sublist (List.take_sublist _ _)
      (List.sorted_insertionSort _ _)
  · intro hnone
    have hfil : db.orders.filter (fun o => likeContains o.customer_name name) = [] :=
      List.filter_eq_nil_iff.mpr (fun a ha => by simp [hnone a ha])
    simp [get_order_history, get_order_history_rows, hfil, List.insertionSort]

/-- C9 witness: no seeded customer matches `zzz`, and the seeded store
already exercises the row-shape conjuncts. -/
theorem get_order_history_spec_witness :
    (get_order_history_rows dbW "zzz").length ≤ 5 ∧
    get_order_history dbW "zzz" = historyNotFoundMsg "zzz" := by
  have h := get_order_history_spec dbW "zzz"
  exact ⟨h.1, h.2.2.2 (by decide)⟩

/-- C10: in `get_menu_recommendation`'s query, name matches come before
description-only matches: if any menu item's name matches the query the
returned row is a name match, and a row matched only through its description
is returned only when no name in the menu matches. -/
theorem get_menu_recommendation_name_priority (db : DB) (q : String) :
    ((∃ m ∈ db.menu, likeContains m.name q = true) →
       ∃ m, get_menu_recommendation_row db q = some m ∧
         likeContains m.name q = true) ∧
    (∀ m, get_menu_recommendation_row db q = some m →
       likeContains m.name q = false →
       ∀ mo ∈ db.menu, likeContains mo.name q = false) := by
  have A : (∃ m ∈ db.menu, likeContains m.name q = true) →
      ∃ m, get_menu_recommendation_row db q = some m ∧
        likeContains m.name q = true := by
    rintro ⟨m0, hm0, hlike⟩
    have hfil : db.menu.filter (fun m => likeContains m.name q) ≠ [] := by
      intro h
      rw [List.filter_eq_nil_iff] at h
      exact absurd hlike (by simpa using h m0 hm0)
    obtain ⟨a, l, hal⟩ := List.exists_cons_of_ne_nil hfil
    refine ⟨a, ?_, ?_⟩
    · unfold get_menu_recommendation_row
      rw [hal]
      rfl
    · have ha : a ∈ db.menu.filter (fun m => likeContains m.name q) := by
        rw [hal]
        exact List.mem_cons_self a l
      have ha2 := List.of_mem_filter ha
      simpa using ha2
  refine ⟨A, ?_⟩
  intro m hm hfalse mo hmo
  by_contra hx
  have hx' : likeContains mo.name q = true := by
    revert hx
    cases likeContains mo.name q <;> simp
  obtain ⟨mm, hmm, hl⟩ := A ⟨mo, hmo, hx'⟩
  rw [hm] at hmm
  injection hmm with hmm
  rw [hmm, hl] at hfalse
  cases hfalse

/-- C10 witness: `pizza` matches a menu name, so the returned row is a name
match. -/
theorem get_menu_recommendation_name_priority_witness :
    ∃ m, get_menu_recommendation_row dbW "pizza" = some m ∧
      likeContains m.name "pizza" = true := by
  refine (get_menu_recommendation_name_priority dbW "pizza").1 ?_
  exact ⟨⟨"Margherita Pizza", "Pizza", 1899,
    "Classic tomato sauce, mozzarella, basil",
    "Garlic Bread, Caesar Salad, Red Wine"⟩, by decide, by decide⟩

/-- C1: when the order id parses, the order exists, and some menu name
matches the item substring, the add-item tool rewrites exactly that order:
the matched (first-matching) menu item's name is appended to its item list
and its price added to its total, every other field and every other row and
table being unchanged. -/
theorem update_order_with_recommendation_spec (db : DB) (ids item : String)
    (n : Int) (o : Order) (m : MenuItem)
    (hp : pyInt ids = some n)
    (hm : db.menu.find? (fun mi => likeContains mi.name item) = some m)
    (hf : findOrder db n = some o) :
    findOrder (update_order_with_recommendation db ids item).2 n =
      some { o with items := o.items ++ ", " ++ m.name,
                    order_total := o.order_total + m.price } ∧
    (update_order_with_recommendation db ids item).2.menu = db.menu ∧
    (update_order_with_recommendation db ids item).2.feedback = db.feedback ∧
    ∀ p ∈ db.orders, p.order_id ≠ n →
      p ∈ (update_order_with_recommendation db ids item).2.orders := by
  have hred : (update_order_with_recommendation db ids item).2 =
      updateOrders db n (fun p =>
        { p with items := o.items ++ ", " ++ m.name,
                 order_total := o.order_total + m.price }) := by
    simp [update_order_with_recommendation, hp, hm, hf]
  rw [hred]
  refine ⟨?_, rfl, rfl, ?_⟩
  · exact findOrder_updateOrders db n
      (fun p => { p with items := o.items ++ ", " ++ m.name,
                         order_total := o.order_total + m.price })
      (fun p => rfl) o hf
  · intro p hp0 hne
    exact List.mem_map.mpr ⟨p, hp0, if_neg hne⟩

/-- C1 witness: adding `salad` (first menu name match: `Caesar Salad`,
`$8.99`) to the seeded order `2042`. -/
theorem update_order_with_recommendation_spec_witness :
    findOrder (update_order_with_recommendation dbW "2042" "salad").2 2042 =
      some ⟨2042, "Jane Smith", "Cheeseburger, Fries, Coke, Caesar Salad",
        "preparing", some 1500, "Burger Palace", "456 Oak Ave", "555-0456",
        2749, 0⟩ ∧
    (update_order_with_recommendation dbW "2042" "salad").2.menu = dbW.menu := by
  have h := update_order_with_recommendation_spec dbW "2042" "salad" 2042 ordJane
    ⟨"Caesar Salad", "Salad", 899, "Romaine lettuce, croutons, parmesan",
     "Soup, Breadsticks, Iced Tea"⟩
    (by decide) (by decide) (by decide)
  exact ⟨h.1.trans (by decide), h.2.1⟩
